import Mathlib

/-!
A shallow embedding of the k6-operator reconciliation core: the worker
lifecycle poller (`isJobRunning`, `StoppedJobs`, `KillJobs` from the
controllers package), the cloud coordination helpers (`createClient`,
`ShouldAbort`), the optimistic status updater (`UpdateStatus`) and the
stage dispatch of `K6Reconciler.Reconcile`.

External collaborators (the Kubernetes API server, HTTP probes of worker
endpoints, the cloud control-plane, and the out-of-scope job creation
helpers) are represented by explicit outcome parameters: each definition
takes the observable result of every external call it performs and
computes exactly what the Go code computes from those results.
-/

/-! ## Data model: conditions, status, the K6 object -/

/-- Tri-state value of a status condition (metav1.ConditionUnknown /
ConditionTrue / ConditionFalse). -/
inductive CondState
  | unknown
  | ctrue
  | cfalse
  deriving DecidableEq

/-- The named conditions used by the controller
(v1alpha1.CloudTestRun, CloudTestRunCreated, CloudTestRunFinalized,
CloudTestRunAborted, CloudPLZTestRun, TestRunRunning). -/
inductive Condition
  | cloudTestRun
  | cloudTestRunCreated
  | cloudTestRunFinalized
  | cloudTestRunAborted
  | cloudPLZTestRun
  | testRunRunning
  deriving DecidableEq

/-- The condition set of a K6 status, one tri-state slot per named condition. -/
structure Conditions where
  cloudTestRun : CondState
  cloudTestRunCreated : CondState
  cloudTestRunFinalized : CondState
  cloudTestRunAborted : CondState
  cloudPLZTestRun : CondState
  testRunRunning : CondState
  deriving DecidableEq

def Conditions.get (c : Conditions) : Condition → CondState
  | Condition.cloudTestRun => c.cloudTestRun
  | Condition.cloudTestRunCreated => c.cloudTestRunCreated
  | Condition.cloudTestRunFinalized => c.cloudTestRunFinalized
  | Condition.cloudTestRunAborted => c.cloudTestRunAborted
  | Condition.cloudPLZTestRun => c.cloudPLZTestRun
  | Condition.testRunRunning => c.testRunRunning

def Conditions.set (c : Conditions) : Condition → CondState → Conditions
  | Condition.cloudTestRun, v => { c with cloudTestRun := v }
  | Condition.cloudTestRunCreated, v => { c with cloudTestRunCreated := v }
  | Condition.cloudTestRunFinalized, v => { c with cloudTestRunFinalized := v }
  | Condition.cloudTestRunAborted, v => { c with cloudTestRunAborted := v }
  | Condition.cloudPLZTestRun, v => { c with cloudPLZTestRun := v }
  | Condition.testRunRunning, v => { c with testRunRunning := v }

/-- K6 status: stage string, remote test run identifier, conditions. -/
structure K6Status where
  stage : String
  testRunID : String
  conditions : Conditions
  deriving DecidableEq

/-- The parts of the K6 spec the embedded code reads: `Spec.Token`,
`Spec.Cleanup` and `Spec.Parallelism`. -/
structure K6Spec where
  token : String
  cleanup : String
  parallelism : Int
  deriving DecidableEq

/-- The K6 custom resource (identity fields are left implicit: the model
tracks one run, and name/namespace only feed label selectors and logs). -/
structure K6 where
  spec : K6Spec
  status : K6Status
  deriving DecidableEq

/-- `k6.IsTrue(cond)`. -/
def K6.IsTrue (k6 : K6) (c : Condition) : Bool :=
  match k6.status.conditions.get c with
  | CondState.ctrue => true
  | _ => false

/-- `k6.IsFalse(cond)`. -/
def K6.IsFalse (k6 : K6) (c : Condition) : Bool :=
  match k6.status.conditions.get c with
  | CondState.cfalse => true
  | _ => false

/-- `k6.IsUnknown(cond)`. -/
def K6.IsUnknown (k6 : K6) (c : Condition) : Bool :=
  match k6.status.conditions.get c with
  | CondState.unknown => true
  | _ => false

/-- `k6.UpdateCondition(cond, v)`: set the named condition. -/
def K6.UpdateCondition (k6 : K6) (c : Condition) (v : CondState) : K6 :=
  { k6 with status := { k6.status with conditions := k6.status.conditions.set c v } }

/-- `k6.Status.Stage = s`: in-memory stage assignment. -/
def K6.setStage (k6 : K6) (s : String) : K6 :=
  { k6 with status := { k6.status with stage := s } }

/-! ## Worker-lifecycle poller (`src/unnamed/part_000`) -/

/-- Outcome of reading and decoding the body of a worker status response:
`ioutil.ReadAll` failure, `json.Unmarshal` failure, or a parsed
`k6api.StatusJSONAPI` whose `.Status().Stopped` flag is recorded. -/
inductive BodyOutcome
  | readError
  | parseError
  | parsed (stopped : Bool)
  deriving DecidableEq

/-- Observable outcome of the `http.Get` probe of one worker endpoint:
either the transport call errored (`noResponse`) or a response arrived
with a status code and a body outcome. -/
inductive ProbeResult
  | noResponse
  | response (statusCode : Nat) (body : BodyOutcome)
  deriving DecidableEq

/-- Embeds `isJobRunning` from `src/unnamed/part_000`:
`http.Get` error returns false; a response with status code >= 400
returns true; a body read error or JSON parse error returns true;
otherwise the function returns the parsed `status.Status().Stopped`
flag verbatim. -/
def isJobRunning : ProbeResult → Bool
  | ProbeResult.noResponse => false
  | ProbeResult.response statusCode body =>
    if statusCode ≥ 400 then true
    else
      match body with
      | BodyOutcome.readError => true
      | BodyOutcome.parseError => true
      | BodyOutcome.parsed stopped => stopped

/-- Embeds `StoppedJobs` from `src/unnamed/part_000` (the spec's
`PollStopped`). The argument is the outcome of the label-selector
`r.List` of worker services: `none` when the List call errors, otherwise
one `ProbeResult` per discovered service. The Go code counts the
services for which `isJobRunning` is true and reports all-stopped iff
that count is zero (List errors leave the named return at false). -/
def StoppedJobs (services : Option (List ProbeResult)) : Bool :=
  match services with
  | none => false
  | some svc =>
    let count := svc.foldl (fun n s => if isJobRunning s then n + 1 else n) 0
    if count > 0 then false else true

/-- Error values observable from `KillJobs`. -/
inductive KillErr
  | listError
  | deleteError
  deriving DecidableEq

/-- Embeds `KillJobs` from `src/unnamed/part_000`. The argument is the
outcome of the label-selector `r.List` of runner jobs: `none` when the
List call errors, otherwise one Bool per matched job recording whether
`r.Delete` succeeded for it. A List error is returned to the caller; in
the deletion loop `err` is reassigned from each `r.Delete` call and
failed deletions are only logged; the function then ends with
`return nil`, so the loop's error is discarded. -/
def KillJobs (jobs : Option (List Bool)) : Option KillErr :=
  match jobs with
  | none => some KillErr.listError
  | some js =>
    let _err := js.foldl
      (fun (_ : Option KillErr) ok =>
        if ok then (none : Option KillErr) else some KillErr.deleteError) none
    none

/-! ## Cloud coordinator (`K6Reconciler.createClient`, `K6Reconciler.ShouldAbort`) -/

/-- The process-wide cloud client (`cloudapi.Client`), identified by the
token and host it was built from (`cloud.NewClient(log, token, host)`). -/
structure CloudClient where
  token : String
  host : String
  deriving DecidableEq

/-- Outcome of `loadToken`: an error, "token object not found yet", or a
ready token value. -/
inductive TokenLookup
  | lookupError
  | notReady
  | ready (token : String)
  deriving DecidableEq

/-- Embeds `K6Reconciler.createClient`: when the reconciler already holds
a client it returns (found=true, no error) without touching the token
lookup; otherwise it consults `loadToken` and either propagates the
error, reports not-found, or builds and stores a new client from the
token and the `K6_CLOUD_HOST` runner environment variable.
Result: (found, isErr, resulting client field). -/
def createClient (current : Option CloudClient) (lookup : TokenLookup)
    (host : String) : Bool × Bool × Option CloudClient :=
  match current with
  | some c => (true, false, some c)
  | none =>
    match lookup with
    | TokenLookup.lookupError => (false, true, none)
    | TokenLookup.notReady => (false, false, none)
    | TokenLookup.ready token => (true, false, some ⟨token, host⟩)

/-- Outcome of `cloud.GetTestRunState`: a transport/parse error, or a
successfully retrieved state whose `Aborted()` flag is recorded. -/
inductive TestRunStateResult
  | stateError
  | state (aborted : Bool)
  deriving DecidableEq

/-- Embeds `K6Reconciler.ShouldAbort`: an empty `Status.TestRunID` is
logged and returns false; an error from `cloud.GetTestRunState` is
logged and returns false; otherwise the retrieved state's `Aborted()`
flag is returned. -/
def ShouldAbort (testRunID : String) (res : TestRunStateResult) : Bool :=
  if testRunID.length = 0 then false
  else
    match res with
    | TestRunStateResult.stateError => false
    | TestRunStateResult.state aborted => aborted

/-! ## Forward-only status merge -/

/-- Modelled from the spec: `K6Status.SetIfNewer` and the stage order are
not under `src/` (they live in the out-of-scope api package), so the
stage order `"" → initialization → initialized → created → started →
stopped → finished` (with `error` reachable from failure paths) is taken
from the spec; a stage may only move forward in this order. Strings
outside the closed set are mapped to 0 so nothing can advance into them. -/
def stageIndex (s : String) : Nat :=
  if s = "" then 0
  else if s = "initialization" then 1
  else if s = "initialized" then 2
  else if s = "created" then 3
  else if s = "started" then 4
  else if s = "stopped" then 5
  else if s = "finished" then 6
  else if s = "error" then 7
  else 0

/-- Modelled from the spec: the per-condition forward-only merge rule of
the status updater — a condition may only move Unknown→True,
Unknown→False, or stay. Returns the merged value and whether it changed. -/
def condSetIfNewer (cur proposed : CondState) : CondState × Bool :=
  if cur = CondState.unknown ∧ proposed ≠ CondState.unknown then (proposed, true)
  else (cur, false)

/-- Modelled from the spec: the forward-only merge applied per condition
slot. Returns the merged conditions and whether any slot changed. -/
def mergeConditions (cur proposed : Conditions) : Conditions × Bool :=
  let a := condSetIfNewer cur.cloudTestRun proposed.cloudTestRun
  let b := condSetIfNewer cur.cloudTestRunCreated proposed.cloudTestRunCreated
  let c := condSetIfNewer cur.cloudTestRunFinalized proposed.cloudTestRunFinalized
  let d := condSetIfNewer cur.cloudTestRunAborted proposed.cloudTestRunAborted
  let e := condSetIfNewer cur.cloudPLZTestRun proposed.cloudPLZTestRun
  let f := condSetIfNewer cur.testRunRunning proposed.testRunRunning
  (⟨a.1, b.1, c.1, d.1, e.1, f.1⟩, a.2 || b.2 || c.2 || d.2 || e.2 || f.2)

/-- Modelled from the spec: `k6.Status.SetIfNewer(proposedStatus)` — the
forward-only merge of a proposed status into the freshly fetched status:
the stage may only move forward in the fixed order, `testRunID` may only
move from empty to non-empty, and each condition may only move
Unknown→True or Unknown→False. Returns the merged status and whether the
merge changed anything (`isNewer`). -/
def SetIfNewer (cur proposed : K6Status) : K6Status × Bool :=
  let st :=
    if stageIndex cur.stage < stageIndex proposed.stage then (proposed.stage, true)
    else (cur.stage, false)
  let idp :=
    if cur.testRunID = "" ∧ proposed.testRunID ≠ "" then (proposed.testRunID, true)
    else (cur.testRunID, false)
  let cs := mergeConditions cur.conditions proposed.conditions
  (⟨st.1, idp.1, cs.1⟩, st.2 || idp.2 || cs.2)

/-! ## Status updater (`K6Reconciler.UpdateStatus`) -/

/-- What one call to `K6Reconciler.UpdateStatus` returns and does:
the Go return pair (`updateHappened`, error as a flag), the in-memory
K6 object after the call (the re-fetched object with the merge applied —
the Go code re-fetches into `k6` itself), the persisted object after the
call, and the patch that was issued, recorded as
(base of the `client.MergeFrom` diff, patched object), `none` when no
write was issued. -/
structure UpdateStatusResult where
  updateHappened : Bool
  isErr : Bool
  k6 : K6
  store : Option K6
  patched : Option (K6 × K6)
  deriving DecidableEq

/-- Embeds `K6Reconciler.UpdateStatus`. `store` is the persisted object
the re-fetch returns (`none` = NotFound), `fetchErr` a transient Get
failure, `patchErr` a failure of `r.Client.Status().Patch`. The Go code
saves `proposedStatus := k6.Status`, re-fetches into `k6`, deep-copies
the fetched object (`cleanObj`), merges with `SetIfNewer` and, only when
the merge reports newer, patches with a diff against `cleanObj`. -/
def UpdateStatus (fetchErr patchErr : Bool) (store : Option K6) (k6 : K6) :
    UpdateStatusResult :=
  let proposedStatus := k6.status
  if fetchErr then ⟨false, true, k6, store, none⟩
  else
    match store with
    | none => ⟨false, false, k6, none, none⟩
    | some fetched =>
      let cleanObj := fetched
      let m := SetIfNewer fetched.status proposedStatus
      let merged : K6 := { fetched with status := m.1 }
      if m.2 = false then ⟨false, false, merged, some fetched, none⟩
      else if patchErr then ⟨false, true, merged, some fetched, some (cleanObj, merged)⟩
      else ⟨true, false, merged, some merged, some (cleanObj, merged)⟩

/-! ## Reconciliation state machine (`K6Reconciler.Reconcile`) -/

/-- A `ctrl.Result`: the `Requeue` flag and `RequeueAfter` in seconds
(`time.Second = 1`, `time.Second * 15 = 15`). -/
structure CtrlResult where
  requeue : Bool
  requeueAfterSeconds : Nat
  deriving DecidableEq

/-- Observable outcomes of every external call one `Reconcile` invocation
can make. Fields holding `CtrlResult × Bool` are the (result, error flag)
returned by out-of-scope collaborators that the switch returns verbatim
(`InitializeJobs`, `RunValidations`, `SetupCloudTest`, `CreateJobs`,
`StartJobs`, `StopJobs`). `initDefaults` stands for `k6.Initialize()`
(out of scope). `finishJobs` is the Bool returned by `FinishJobs`.
`stoppedProbes` feeds the embedded `StoppedJobs`. `killJobs` is the
(allDeleted, error flag) pair the stopped-stage caller destructures from
its `KillJobs` call — modelled from the spec's two-valued bulk-delete
contract, since the `KillJobs` under `src/` returns only an error.
`testRunState` feeds the embedded `ShouldAbort`; `finishTestRunErr` is
whether `cloud.FinishTestRun` errors; the status flags feed the embedded
`UpdateStatus`. -/
structure Env where
  fetchErr : Bool
  tokenLookup : TokenLookup
  cloudHost : String
  initDefaults : K6Status → K6Status
  initializeJobs : CtrlResult × Bool
  runValidations : CtrlResult × Bool
  setupCloudTest : CtrlResult × Bool
  createJobs : CtrlResult × Bool
  startJobs : CtrlResult × Bool
  stopJobs : CtrlResult × Bool
  finishJobs : Bool
  stoppedProbes : Option (List ProbeResult)
  killJobs : Bool × Bool
  testRunState : TestRunStateResult
  finishTestRunErr : Bool
  statusFetchErr : Bool
  statusPatchErr : Bool

/-- Everything observable about one `Reconcile` invocation: the returned
`ctrl.Result` and error flag, the persisted object afterwards, the
reconciler's cloud-client field afterwards, whether `r.Delete(ctx, k6)`
was called on the run object itself, and the list of proposed statuses
submitted to `UpdateStatus`, in call order. -/
structure ReconcileOutcome where
  result : CtrlResult
  isErr : Bool
  store : Option K6
  cloudClient : Option CloudClient
  deletedSelf : Bool
  submitted : List K6Status
  deriving DecidableEq

/-- The `case ""` branch: `k6.Initialize()`, persist, set
`Stage = "initialization"`, persist again; when the second update
happened, return `InitializeJobs`. -/
def stageEmpty (client : Option CloudClient) (store : Option K6) (k6 : K6)
    (env : Env) : ReconcileOutcome :=
  let k6a : K6 := { k6 with status := env.initDefaults k6.status }
  let u1 := UpdateStatus env.statusFetchErr env.statusPatchErr store k6a
  if u1.isErr then ⟨⟨false, 0⟩, true, u1.store, client, false, [k6a.status]⟩
  else
    let k6b := u1.k6.setStage "initialization"
    let u2 := UpdateStatus env.statusFetchErr env.statusPatchErr u1.store k6b
    if u2.isErr then ⟨⟨false, 0⟩, true, u2.store, client, false, [k6a.status, k6b.status]⟩
    else if u2.updateHappened then
      ⟨env.initializeJobs.1, env.initializeJobs.2, u2.store, client, false,
        [k6a.status, k6b.status]⟩
    else ⟨⟨false, 0⟩, false, u2.store, client, false, [k6a.status, k6b.status]⟩

/-- The tail of the `case "initialization"` branch from the
`k6.IsTrue(CloudTestRun)` check to the end of the case. -/
def stageInitializationTail (client : Option CloudClient) (store : Option K6)
    (k6 : K6) (env : Env) (submitted : List K6Status) : ReconcileOutcome :=
  if k6.IsTrue Condition.cloudTestRun then
    if k6.IsFalse Condition.cloudTestRunCreated then
      ⟨env.setupCloudTest.1, env.setupCloudTest.2, store, client, false, submitted⟩
    else
      let k6a := k6.setStage "initialized"
      let u := UpdateStatus env.statusFetchErr env.statusPatchErr store k6a
      if u.isErr then
        ⟨⟨false, 0⟩, true, u.store, client, false, submitted ++ [k6a.status]⟩
      else ⟨⟨false, 0⟩, false, u.store, client, false, submitted ++ [k6a.status]⟩
  else ⟨⟨false, 0⟩, false, store, client, false, submitted⟩

/-- The `case "initialization"` branch: delegate to `RunValidations`
while `CloudTestRun` is Unknown; when False, advance to `initialized`
(returning early only if that update happened or errored); then the
`CloudTestRun = True` handling. -/
def stageInitialization (client : Option CloudClient) (store : Option K6)
    (k6 : K6) (env : Env) : ReconcileOutcome :=
  if k6.IsUnknown Condition.cloudTestRun then
    ⟨env.runValidations.1, env.runValidations.2, store, client, false, []⟩
  else if k6.IsFalse Condition.cloudTestRun then
    let k6a := k6.setStage "initialized"
    let u := UpdateStatus env.statusFetchErr env.statusPatchErr store k6a
    if u.isErr then ⟨⟨false, 0⟩, true, u.store, client, false, [k6a.status]⟩
    else if u.updateHappened then
      ⟨⟨false, 0⟩, false, u.store, client, false, [k6a.status]⟩
    else stageInitializationTail client u.store u.k6 env [k6a.status]
  else stageInitializationTail client store k6 env []

/-- The `case "started"` branch: fluke guards, then `FinishJobs`; while
not finished, a PLZ run not yet aborted consults `ShouldAbort` and
returns `StopJobs` on an abort signal, otherwise the branch requeues
after 15s; once finished, a running test is marked stopped via
`UpdateCondition` + stage assignment + `UpdateStatus`. -/
def stageStarted (client : Option CloudClient) (store : Option K6) (k6 : K6)
    (env : Env) : ReconcileOutcome :=
  if k6.IsTrue Condition.cloudTestRun && k6.IsTrue Condition.cloudTestRunFinalized then
    ⟨⟨false, 0⟩, false, store, client, false, []⟩
  else if k6.IsTrue Condition.cloudTestRunAborted then
    ⟨⟨false, 0⟩, false, store, client, false, []⟩
  else if !env.finishJobs then
    if k6.IsTrue Condition.cloudPLZTestRun && k6.IsFalse Condition.cloudTestRunAborted then
      if ShouldAbort k6.status.testRunID env.testRunState then
        ⟨env.stopJobs.1, env.stopJobs.2, store, client, false, []⟩
      else ⟨⟨false, 15⟩, false, store, client, false, []⟩
    else ⟨⟨false, 15⟩, false, store, client, false, []⟩
  else
    if k6.IsTrue Condition.testRunRunning then
      let k6a := (k6.UpdateCondition Condition.testRunRunning CondState.cfalse).setStage "stopped"
      let u := UpdateStatus env.statusFetchErr env.statusPatchErr store k6a
      if u.isErr then ⟨⟨false, 0⟩, true, u.store, client, false, [k6a.status]⟩
      else ⟨⟨false, 0⟩, false, u.store, client, false, [k6a.status]⟩
    else ⟨⟨false, 0⟩, false, store, client, false, []⟩

/-- The tail of the `case "stopped"` branch after the finalize step: the
stage assignment to "finished", `UpdateStatus`, and requeue-after(1s)
(`ctrl.Result{}, err` when the update errors). -/
def stageStoppedFinish (client : Option CloudClient) (store : Option K6) (k6 : K6)
    (env : Env) (submitted : List K6Status) : ReconcileOutcome :=
  let k6d := k6.setStage "finished"
  let u := UpdateStatus env.statusFetchErr env.statusPatchErr store k6d
  if u.isErr then
    ⟨⟨false, 0⟩, true, u.store, client, false, submitted ++ [k6d.status]⟩
  else ⟨⟨false, 1⟩, false, u.store, client, false, submitted ++ [k6d.status]⟩

/-- The finalize step of the `case "stopped"` branch: a cloud run not yet
finalized calls `cloud.FinishTestRun`; an error is logged and the branch
returns `ctrl.Result{}, nil` at once; on success `CloudTestRunFinalized`
is set before continuing to the stage advance. -/
def stageStoppedFinalize (client : Option CloudClient) (store : Option K6) (k6 : K6)
    (env : Env) (submitted : List K6Status) : ReconcileOutcome :=
  if k6.IsTrue Condition.cloudTestRun && k6.IsFalse Condition.cloudTestRunFinalized then
    if env.finishTestRunErr then
      ⟨⟨false, 0⟩, false, store, client, false, submitted⟩
    else
      stageStoppedFinish client store
        (k6.UpdateCondition Condition.cloudTestRunFinalized CondState.ctrue) env submitted
  else stageStoppedFinish client store k6 env submitted

/-- The `case "stopped"` branch: the forced-PLZ-abort sweep (wait for
`StoppedJobs`, then `KillJobs`; a KillJobs error returns requeue-after(1s)
with the error; when all jobs were deleted, re-mark `CloudTestRunAborted`
and persist), then the finalize step and the stage advance. The in-memory
object and the store that reach the finalize step are the ones left by the
abort sweep's `UpdateStatus`, when it ran. -/
def stageStopped (client : Option CloudClient) (store : Option K6) (k6 : K6)
    (env : Env) : ReconcileOutcome :=
  if k6.IsTrue Condition.cloudPLZTestRun && k6.IsTrue Condition.cloudTestRunAborted then
    if StoppedJobs env.stoppedProbes then
      if env.killJobs.2 then
        ⟨⟨false, 1⟩, true, store, client, false, []⟩
      else if env.killJobs.1 then
        let k6a := k6.UpdateCondition Condition.cloudTestRunAborted CondState.ctrue
        let u := UpdateStatus env.statusFetchErr env.statusPatchErr store k6a
        if u.isErr then
          ⟨⟨false, 0⟩, true, u.store, client, false, [k6a.status]⟩
        else stageStoppedFinalize client u.store u.k6 env [k6a.status]
      else stageStoppedFinalize client store k6 env []
    else stageStoppedFinalize client store k6 env []
  else stageStoppedFinalize client store k6 env []

/-- The `case "error", "finished"` branch: when `Spec.Cleanup` is
"post", `r.Delete(ctx, k6)` removes the run object itself (its returned
error is ignored by the Go code); otherwise nothing happens. -/
def stageTerminal (client : Option CloudClient) (store : Option K6) (k6 : K6) :
    ReconcileOutcome :=
  if k6.spec.cleanup = "post" then
    ⟨⟨false, 0⟩, false, none, client, true, []⟩
  else ⟨⟨false, 0⟩, false, store, client, false, []⟩

/-- The `switch k6.Status.Stage` dispatch of `Reconcile`, including the
fallthrough "invalid status" error. -/
def ReconcileStage (client : Option CloudClient) (store : Option K6) (k6 : K6)
    (env : Env) : ReconcileOutcome :=
  if k6.status.stage = "" then stageEmpty client store k6 env
  else if k6.status.stage = "initialization" then stageInitialization client store k6 env
  else if k6.status.stage = "initialized" then
    ⟨env.createJobs.1, env.createJobs.2, store, client, false, []⟩
  else if k6.status.stage = "created" then
    ⟨env.startJobs.1, env.startJobs.2, store, client, false, []⟩
  else if k6.status.stage = "started" then stageStarted client store k6 env
  else if k6.status.stage = "stopped" then stageStopped client store k6 env
  else if k6.status.stage = "error" then stageTerminal client store k6
  else if k6.status.stage = "finished" then stageTerminal client store k6
  else ⟨⟨false, 0⟩, true, store, client, false, []⟩

/-- The body of `Reconcile` once the K6 object is loaded: the
`CloudPLZTestRun` client bootstrap (an error returns it; a missing token
returns requeue-after(1s)), then the stage dispatch. -/
def ReconcileLoaded (client : Option CloudClient) (store : Option K6) (k6 : K6)
    (env : Env) : ReconcileOutcome :=
  let boot :=
    if k6.IsTrue Condition.cloudPLZTestRun then
      createClient client env.tokenLookup env.cloudHost
    else (true, false, client)
  if boot.2.1 then ⟨⟨false, 0⟩, true, store, boot.2.2, false, []⟩
  else if !boot.1 then ⟨⟨false, 1⟩, false, store, boot.2.2, false, []⟩
  else ReconcileStage boot.2.2 store k6 env

/-- Embeds `K6Reconciler.Reconcile`: fetch the K6 object (a transient Get
error returns `ctrl.Result{Requeue: true}` with the error; NotFound
returns success with nothing to do), then the loaded body. `client` is
the reconciler's `K6CloudClient` field on entry, `store` the persisted
object the fetch returns. -/
def Reconcile (client : Option CloudClient) (store : Option K6) (env : Env) :
    ReconcileOutcome :=
  if env.fetchErr then ⟨⟨true, 0⟩, true, store, client, false, []⟩
  else
    match store with
    | none => ⟨⟨false, 0⟩, false, none, client, false, []⟩
    | some k6 => ReconcileLoaded client store k6 env

/-! ## Concrete sample objects used by the witnesses -/

/-- Concrete sample conditions for the witnesses: a non-cloud run. -/
def condsSample : Conditions :=
  ⟨CondState.cfalse, CondState.cfalse, CondState.cfalse, CondState.cfalse,
    CondState.cfalse, CondState.ctrue⟩

/-- A persisted object at stage "created". -/
def k6FreshSample : K6 := ⟨⟨"tok", "never", 3⟩, ⟨"created", "", condsSample⟩⟩

/-- A proposed update of the same object at stage "started". -/
def k6ProposalSample : K6 := ⟨⟨"tok", "never", 3⟩, ⟨"started", "", condsSample⟩⟩

/-- A fully idle environment for witnesses: a healthy persistence layer,
a missing token object, and inert collaborator results. -/
def envIdle : Env :=
  ⟨false, TokenLookup.notReady, "", fun s => s,
    (⟨false, 0⟩, false), (⟨false, 0⟩, false), (⟨false, 0⟩, false), (⟨false, 0⟩, false),
    (⟨false, 0⟩, false), (⟨false, 0⟩, false),
    false, some [], (true, false), TestRunStateResult.stateError, false, false, false⟩

/-- A finished run with cleanup policy "post". -/
def k6FinishedPost : K6 := ⟨⟨"tok", "post", 2⟩, ⟨"finished", "", condsSample⟩⟩

/-- Conditions of a PLZ-mode cloud run mid-flight. -/
def condsPLZSample : Conditions :=
  ⟨CondState.ctrue, CondState.ctrue, CondState.cfalse, CondState.cfalse,
    CondState.ctrue, CondState.ctrue⟩

/-- A started PLZ run with a remote test run identifier. -/
def k6PLZSample : K6 := ⟨⟨"tok", "never", 1⟩, ⟨"started", "id1", condsPLZSample⟩⟩

/-- A non-cloud run in stage "started", marked running. -/
def k6StartedSample : K6 := ⟨⟨"tok", "never", 3⟩, ⟨"started", "", condsSample⟩⟩

/-- The idle environment with the worker poll reporting all stopped. -/
def envAllStopped : Env := { envIdle with finishJobs := true }

/-- Conditions of a cloud (non-PLZ) run that reached "stopped" without
being finalized. -/
def condsCloudStopped : Conditions :=
  ⟨CondState.ctrue, CondState.ctrue, CondState.cfalse, CondState.cfalse,
    CondState.cfalse, CondState.cfalse⟩

/-- A cloud run in stage "stopped", not yet finalized. -/
def k6StoppedCloud : K6 := ⟨⟨"tok", "never", 2⟩, ⟨"stopped", "id9", condsCloudStopped⟩⟩

/-- The idle environment with `cloud.FinishTestRun` failing. -/
def envFinalizeFail : Env := { envIdle with finishTestRunErr := true }

/-! ## Claims about the poller -/

/-- Claim C1, evaluated against the code at its failing inputs. The claim
states the probe policy is fail-open: no response / transport error /
decode error / error-range code count as still running, and only a
parsed payload with `stopped = true` counts as stopped. The embedded
`isJobRunning` instead returns false (not running) on a transport error,
so a lone unreachable endpoint makes `StoppedJobs` report all-stopped,
and it returns the parsed `Stopped` flag verbatim, so a worker that
reports `stopped = true` is counted as still running. The claim's
two-endpoint example evaluates to false as stated, but only because the
`stopped = true` endpoint is miscounted as running. -/
theorem claim_C1_probe_policy_eval :
    isJobRunning ProbeResult.noResponse = false
    ∧ StoppedJobs (some [ProbeResult.noResponse]) = true
    ∧ isJobRunning (ProbeResult.response 200 (BodyOutcome.parsed true)) = true
    ∧ StoppedJobs (some [ProbeResult.noResponse,
        ProbeResult.response 200 (BodyOutcome.parsed true)]) = false := by
  decide

/-- Claim C2, evaluated against the code at its failing input. The claim
states `KillJobs` reports both whether any per-handle deletion error
occurred and whether every matched handle was deleted. The embedded
`KillJobs` returns `nil` after the deletion loop whether a deletion
failed or not, and returns no completion flag at all, while its caller
in the stopped stage destructures a two-valued
`allDeleted, err := KillJobs(...)` result. -/
theorem claim_C2_killJobs_swallows_failures :
    KillJobs (some [false]) = none ∧ KillJobs (some [true]) = none := by
  decide

/-- Claim C8: a successful label-selector listing with zero matching
worker endpoints makes `StoppedJobs` (the spec's `PollStopped`) return
true — the vacuous case counts as all stopped. -/
theorem claim_C8_pollStopped_vacuous : StoppedJobs (some []) = true := by
  decide

/-- Claim C10: when the label-selector listing itself fails,
`StoppedJobs` (the spec's `PollStopped`) returns false, so a listing
error is never mistaken for run completion. -/
theorem claim_C10_pollStopped_list_failure : StoppedJobs none = false := by
  decide

/-! ## Claims about the cloud coordinator -/

/-- Claim C4: `ShouldAbort` is fail-closed — it returns true exactly when
the remote run identifier is non-empty and the remote state was
successfully retrieved with its aborted flag set; an empty identifier or
any transport/parse error yields false. -/
theorem claim_C4_shouldAbort_fail_closed (id : String) (res : TestRunStateResult) :
    ShouldAbort id res = true ↔ id ≠ "" ∧ res = TestRunStateResult.state true := by
  unfold ShouldAbort
  by_cases h : id.length = 0
  · have hid : id = "" := by
      cases id with
      | mk data =>
        simp only [String.length] at h
        simp [List.length_eq_zero.mp h]
    simp [h, hid]
  · have hid : id ≠ "" := by
      intro he
      exact h (by simp [he])
    cases res with
    | stateError => simp [h, hid]
    | state aborted => cases aborted <;> simp [h, hid]

/-! ## Claims about the status updater -/

/-- Claim C3: `UpdateStatus` re-fetches the persisted object; when the
object was deleted it reports no-update with no error; when the
forward-only merge reports no change it reports no-update without
issuing a write; otherwise it issues a diff-based patch whose base is
the pre-merge fetched object and reports that the update happened. -/
theorem claim_C3_updateStatus_contract (fresh k6 : K6) :
    UpdateStatus false false none k6 =
      ⟨false, false, k6, none, none⟩
    ∧ ((SetIfNewer fresh.status k6.status).2 = false →
        UpdateStatus false false (some fresh) k6 =
          ⟨false, false, { fresh with status := (SetIfNewer fresh.status k6.status).1 },
            some fresh, none⟩)
    ∧ ((SetIfNewer fresh.status k6.status).2 = true →
        UpdateStatus false false (some fresh) k6 =
          ⟨true, false, { fresh with status := (SetIfNewer fresh.status k6.status).1 },
            some { fresh with status := (SetIfNewer fresh.status k6.status).1 },
            some (fresh, { fresh with status := (SetIfNewer fresh.status k6.status).1 })⟩) := by
  refine ⟨rfl, ?_, ?_⟩ <;> intro h <;> simp [UpdateStatus, h]

/-- Witness for claim C3: the forward stage move "created" → "started" is
newer, so the concrete call patches against the pre-merge object and
reports that the update happened. -/
theorem claim_C3_witness :
    (SetIfNewer k6FreshSample.status k6ProposalSample.status).2 = true
    ∧ UpdateStatus false false (some k6FreshSample) k6ProposalSample =
        ⟨true, false,
          { k6FreshSample with
              status := (SetIfNewer k6FreshSample.status k6ProposalSample.status).1 },
          some { k6FreshSample with
              status := (SetIfNewer k6FreshSample.status k6ProposalSample.status).1 },
          some (k6FreshSample,
            { k6FreshSample with
                status := (SetIfNewer k6FreshSample.status k6ProposalSample.status).1 })⟩ :=
  ⟨by decide,
    (claim_C3_updateStatus_contract k6FreshSample k6ProposalSample).2.2 (by decide)⟩

/-! ## Claims about the reconciliation state machine -/

/-- Claim C9: in a terminal stage ("finished" or "error") a reconcile
invocation deletes the run object itself exactly when the cleanup policy
is "post"; in either case it requests no requeue, reports no error and
proposes no status change. The bootstrap hypothesis keeps the PLZ
client-bootstrap prologue from intercepting the invocation. -/
theorem claim_C9_terminal_cleanup (client : Option CloudClient) (c : CloudClient)
    (k6 : K6) (env : Env)
    (hstage : k6.status.stage = "finished" ∨ k6.status.stage = "error")
    (hboot : k6.IsTrue Condition.cloudPLZTestRun = false ∨ client = some c)
    (hfe : env.fetchErr = false) :
    Reconcile client (some k6) env =
      (if k6.spec.cleanup = "post" then ⟨⟨false, 0⟩, false, none, client, true, []⟩
       else ⟨⟨false, 0⟩, false, some k6, client, false, []⟩) := by
  rcases hboot with hplz | hcl
  · rcases hstage with h | h <;> by_cases hp : k6.spec.cleanup = "post" <;>
      simp [Reconcile, ReconcileLoaded, ReconcileStage, stageTerminal, h, hplz, hfe, hp]
  · subst hcl
    rcases hstage with h | h <;> by_cases hp : k6.spec.cleanup = "post" <;>
      simp [Reconcile, ReconcileLoaded, ReconcileStage, stageTerminal, createClient,
        h, hfe, hp]

/-- Witness for claim C9: a finished run with cleanup "post" gets its run
object deleted, with no requeue and no error. -/
theorem claim_C9_witness :
    Reconcile none (some k6FinishedPost) envIdle =
      (if k6FinishedPost.spec.cleanup = "post"
       then ⟨⟨false, 0⟩, false, none, none, true, []⟩
       else ⟨⟨false, 0⟩, false, some k6FinishedPost, none, false, []⟩) :=
  claim_C9_terminal_cleanup none ⟨"", ""⟩ k6FinishedPost envIdle (Or.inl rfl)
    (Or.inl (by decide)) rfl

/-- Every branch of the "" stage keeps the reconciler's client field. -/
theorem stageEmpty_cloudClient (cl : Option CloudClient) (st : Option K6) (k6 : K6)
    (env : Env) : (stageEmpty cl st k6 env).cloudClient = cl := by
  simp only [stageEmpty]
  repeat' split
  all_goals rfl

/-- Every branch of the initialization tail keeps the client field. -/
theorem stageInitializationTail_cloudClient (cl : Option CloudClient) (st : Option K6)
    (k6 : K6) (env : Env) (sub : List K6Status) :
    (stageInitializationTail cl st k6 env sub).cloudClient = cl := by
  simp only [stageInitializationTail]
  repeat' split
  all_goals rfl

/-- Every branch of the initialization stage keeps the client field. -/
theorem stageInitialization_cloudClient (cl : Option CloudClient) (st : Option K6)
    (k6 : K6) (env : Env) :
    (stageInitialization cl st k6 env).cloudClient = cl := by
  simp only [stageInitialization]
  repeat' split
  all_goals first
    | rfl
    | apply stageInitializationTail_cloudClient

/-- Every branch of the started stage keeps the client field. -/
theorem stageStarted_cloudClient (cl : Option CloudClient) (st : Option K6) (k6 : K6)
    (env : Env) : (stageStarted cl st k6 env).cloudClient = cl := by
  simp only [stageStarted]
  repeat' split
  all_goals rfl

/-- Every branch of the stopped-stage tail keeps the client field. -/
theorem stageStoppedFinish_cloudClient (cl : Option CloudClient) (st : Option K6)
    (k6 : K6) (env : Env) (sub : List K6Status) :
    (stageStoppedFinish cl st k6 env sub).cloudClient = cl := by
  simp only [stageStoppedFinish]
  repeat' split
  all_goals rfl

/-- Every branch of the finalize step keeps the client field. -/
theorem stageStoppedFinalize_cloudClient (cl : Option CloudClient) (st : Option K6)
    (k6 : K6) (env : Env) (sub : List K6Status) :
    (stageStoppedFinalize cl st k6 env sub).cloudClient = cl := by
  simp only [stageStoppedFinalize]
  repeat' split
  all_goals first
    | rfl
    | apply stageStoppedFinish_cloudClient

/-- Every branch of the stopped stage keeps the client field. -/
theorem stageStopped_cloudClient (cl : Option CloudClient) (st : Option K6) (k6 : K6)
    (env : Env) : (stageStopped cl st k6 env).cloudClient = cl := by
  simp only [stageStopped]
  repeat' split
  all_goals first
    | rfl
    | apply stageStoppedFinalize_cloudClient

/-- Every branch of the terminal stage keeps the client field. -/
theorem stageTerminal_cloudClient (cl : Option CloudClient) (st : Option K6) (k6 : K6) :
    (stageTerminal cl st k6).cloudClient = cl := by
  simp only [stageTerminal]
  split
  all_goals rfl

/-- The whole stage dispatch keeps the client field. -/
theorem reconcileStage_cloudClient (cl : Option CloudClient) (st : Option K6) (k6 : K6)
    (env : Env) : (ReconcileStage cl st k6 env).cloudClient = cl := by
  simp only [ReconcileStage]
  repeat' split
  all_goals first
    | rfl
    | apply stageEmpty_cloudClient
    | apply stageInitialization_cloudClient
    | apply stageStarted_cloudClient
    | apply stageStopped_cloudClient
    | apply stageTerminal_cloudClient

/-- A reconcile invocation entered with a constructed client leaves that
client in place: the bootstrap reuses it and no branch replaces it. -/
theorem reconcile_cloudClient_preserved (c : CloudClient) (st : Option K6) (env : Env) :
    (Reconcile (some c) st env).cloudClient = some c := by
  simp only [Reconcile]
  split
  · rfl
  · match st with
    | none => rfl
    | some k6 =>
      simp only [ReconcileLoaded, createClient]
      have hb : (if k6.IsTrue Condition.cloudPLZTestRun
          then ((true, false, some c) : Bool × Bool × Option CloudClient)
          else (true, false, some c)) = (true, false, some c) := ite_self _
      rw [hb]
      simpa using reconcileStage_cloudClient (some c) (some k6) k6 env

/-- Claim C7: the reconciler holds at most one cloud client per process:
a client already held is returned by `createClient` unchanged and with
no observable dependence on the credential lookup; every reconcile
invocation entered with a client leaves it in place; and while the
credential object is missing, bootstrap reports not-ready without error
and the PLZ reconcile path returns a one-second delayed requeue with the
persisted object untouched. -/
theorem claim_C7_client_singleton (c : CloudClient) (lk : TokenLookup) (host : String)
    (k6 : K6) (env : Env) (store : Option K6)
    (hplz : k6.IsTrue Condition.cloudPLZTestRun = true)
    (hnr : env.tokenLookup = TokenLookup.notReady)
    (hfe : env.fetchErr = false) :
    createClient (some c) lk host = (true, false, some c)
    ∧ Reconcile none (some k6) env = ⟨⟨false, 1⟩, false, some k6, none, false, []⟩
    ∧ (Reconcile (some c) store env).cloudClient = some c := by
  refine ⟨rfl, ?_, reconcile_cloudClient_preserved c store env⟩
  simp [Reconcile, ReconcileLoaded, hfe, hplz, hnr, createClient]

/-- Witness for claim C7 at a concrete client, run and environment. -/
theorem claim_C7_witness :
    createClient (some ⟨"t1", "h1"⟩) TokenLookup.lookupError "h2" =
      (true, false, some ⟨"t1", "h1"⟩)
    ∧ Reconcile none (some k6PLZSample) envIdle =
        ⟨⟨false, 1⟩, false, some k6PLZSample, none, false, []⟩
    ∧ (Reconcile (some ⟨"t1", "h1"⟩) (some k6PLZSample) envIdle).cloudClient =
        some ⟨"t1", "h1"⟩ :=
  claim_C7_client_singleton ⟨"t1", "h1"⟩ TokenLookup.lookupError "h2" k6PLZSample
    envIdle (some k6PLZSample) (by decide) rfl rfl

/-- A condition merged with an identical proposal never changes. -/
theorem condSetIfNewer_self (x : CondState) : condSetIfNewer x x = (x, false) := by
  cases x <;> rfl

/-- Claim C6: in stage "started" with the fluke guards off and the run
not PLZ-abortable, (a) when the worker poll reports all stopped and the
test is marked running, the reconciler proposes `TestRunRunning = False`
together with stage "stopped" and the persisted stage advances to
"stopped" with no requeue and no error; (b) when the poll reports
workers still running, the invocation returns a 15-second delayed
requeue with the persisted object untouched. -/
theorem claim_C6_started_poll (client : Option CloudClient) (k6 : K6) (env : Env)
    (hstage : k6.status.stage = "started")
    (hfluke : (k6.IsTrue Condition.cloudTestRun
        && k6.IsTrue Condition.cloudTestRunFinalized) = false)
    (hab : k6.IsTrue Condition.cloudTestRunAborted = false)
    (hplz : k6.IsTrue Condition.cloudPLZTestRun = false)
    (hfe : env.fetchErr = false)
    (hsf : env.statusFetchErr = false)
    (hsp : env.statusPatchErr = false) :
    (env.finishJobs = true → k6.status.conditions.testRunRunning = CondState.ctrue →
      Reconcile client (some k6) env =
        ⟨⟨false, 0⟩, false, some (k6.setStage "stopped"), client, false,
          [((k6.UpdateCondition Condition.testRunRunning CondState.cfalse).setStage
              "stopped").status]⟩)
    ∧ (env.finishJobs = false →
      Reconcile client (some k6) env =
        ⟨⟨false, 15⟩, false, some k6, client, false, []⟩) := by
  constructor
  · intro hfj hrun
    have hrunT : k6.IsTrue Condition.testRunRunning = true := by
      simp [K6.IsTrue, Conditions.get, hrun]
    have hslot : condSetIfNewer k6.status.conditions.testRunRunning CondState.cfalse
        = (k6.status.conditions.testRunRunning, false) := by
      rw [hrun]
      decide
    simp [Reconcile, ReconcileLoaded, ReconcileStage, stageStarted, hstage, hplz,
      hfluke, hab, hfe, hfj, hrunT, UpdateStatus, hsf, hsp, SetIfNewer,
      mergeConditions, condSetIfNewer_self, hslot, stageIndex, K6.setStage,
      K6.UpdateCondition, Conditions.set, and_not_self_iff]
  · intro hfj
    simp [Reconcile, ReconcileLoaded, ReconcileStage, stageStarted, hstage, hplz,
      hfluke, hab, hfe, hfj]

/-- Witness for claim C6: with all three probes stopped the sample run
advances to "stopped" clearing `TestRunRunning` in the proposal; with
workers still running the result is a 15-second delayed requeue. -/
theorem claim_C6_witness :
    Reconcile none (some k6StartedSample) envAllStopped =
      ⟨⟨false, 0⟩, false, some (k6StartedSample.setStage "stopped"), none, false,
        [((k6StartedSample.UpdateCondition Condition.testRunRunning
            CondState.cfalse).setStage "stopped").status]⟩
    ∧ Reconcile none (some k6StartedSample) envIdle =
        ⟨⟨false, 15⟩, false, some k6StartedSample, none, false, []⟩ :=
  ⟨(claim_C6_started_poll none k6StartedSample envAllStopped rfl (by decide) (by decide)
      (by decide) rfl rfl rfl).1 rfl rfl,
    (claim_C6_started_poll none k6StartedSample envIdle rfl (by decide) (by decide)
      (by decide) rfl rfl rfl).2 rfl⟩

/-- Counterexample to claim C5 as stated: with the remote finalize
attempt failing, the stopped-stage invocation does not return a
requeue-after(1s) directive and does not advance the stage — the
persisted object still has stage "stopped" — although no error is
reported. -/
theorem claim_C5_counterexample :
    (Reconcile none (some k6StoppedCloud) envFinalizeFail).result ≠ ⟨false, 1⟩
    ∧ (Reconcile none (some k6StoppedCloud) envFinalizeFail).store = some k6StoppedCloud
    ∧ k6StoppedCloud.status.stage = "stopped"
    ∧ (Reconcile none (some k6StoppedCloud) envFinalizeFail).isErr = false := by
  decide

/-- Claim C5 as amended: in stage "stopped", for a cloud run not yet
finalized and outside the forced-PLZ-abort path, a failing finalize
attempt makes the invocation return `ctrl.Result{}` with no error,
leaving the stage at "stopped" and `CloudTestRunFinalized` untouched
(retried on a later cycle); only when finalize succeeds does the
invocation set `CloudTestRunFinalized = True` in its proposal, advance
the persisted stage to "finished" and return requeue-after(1s). -/
theorem claim_C5_amended_finalize (client : Option CloudClient) (k6 : K6) (env : Env)
    (hstage : k6.status.stage = "stopped")
    (hplz : k6.IsTrue Condition.cloudPLZTestRun = false)
    (hcloud : k6.status.conditions.cloudTestRun = CondState.ctrue)
    (hfin : k6.status.conditions.cloudTestRunFinalized = CondState.cfalse)
    (hfe : env.fetchErr = false)
    (hsf : env.statusFetchErr = false)
    (hsp : env.statusPatchErr = false) :
    (env.finishTestRunErr = true →
      Reconcile client (some k6) env =
        ⟨⟨false, 0⟩, false, some k6, client, false, []⟩)
    ∧ (env.finishTestRunErr = false →
      Reconcile client (some k6) env =
        ⟨⟨false, 1⟩, false, some (k6.setStage "finished"), client, false,
          [((k6.UpdateCondition Condition.cloudTestRunFinalized
              CondState.ctrue).setStage "finished").status]⟩) := by
  have hct : k6.IsTrue Condition.cloudTestRun = true := by
    simp [K6.IsTrue, Conditions.get, hcloud]
  have hff : k6.IsFalse Condition.cloudTestRunFinalized = true := by
    simp [K6.IsFalse, Conditions.get, hfin]
  have hslot : condSetIfNewer k6.status.conditions.cloudTestRunFinalized CondState.ctrue
      = (k6.status.conditions.cloudTestRunFinalized, false) := by
    rw [hfin]
    decide
  constructor
  · intro hfz
    simp [Reconcile, ReconcileLoaded, ReconcileStage, stageStopped,
      stageStoppedFinalize, hstage, hplz, hct, hff, hfz, hfe]
  · intro hfz
    simp [Reconcile, ReconcileLoaded, ReconcileStage, stageStopped,
      stageStoppedFinalize, stageStoppedFinish, hstage, hplz, hct, hff, hfz, hfe,
      UpdateStatus, hsf, hsp, SetIfNewer, mergeConditions, condSetIfNewer_self,
      hslot, stageIndex, K6.setStage, K6.UpdateCondition, Conditions.set,
      and_not_self_iff]

/-- The idle environment with `cloud.FinishTestRun` succeeding is
`envIdle` itself; this run witnesses both branches of the amended C5. -/
theorem claim_C5_witness :
    Reconcile none (some k6StoppedCloud) envFinalizeFail =
      ⟨⟨false, 0⟩, false, some k6StoppedCloud, none, false, []⟩
    ∧ Reconcile none (some k6StoppedCloud) envIdle =
        ⟨⟨false, 1⟩, false, some (k6StoppedCloud.setStage "finished"), none, false,
          [((k6StoppedCloud.UpdateCondition Condition.cloudTestRunFinalized
              CondState.ctrue).setStage "finished").status]⟩ :=
  ⟨(claim_C5_amended_finalize none k6StoppedCloud envFinalizeFail rfl (by decide) rfl rfl
      rfl rfl rfl).1 rfl,
    (claim_C5_amended_finalize none k6StoppedCloud envIdle rfl (by decide) rfl rfl
      rfl rfl rfl).2 rfl⟩
